import Mathlib

/-!
Shallow embedding of `src/driver/core/context.py` (PyCu context-lifecycle
subsystem): the thread-local context-stack mirror, the singleton context
manager, the primary-context registry, the owned/primary context object
model and the make-current guard.

The low-level driver bindings (`pycu.driver`) are code of this repository
that is not under `src/`; they are modelled from the interface the spec
gives for them (spec section 6).  The driver is embedded as an explicit
state record carrying the per-thread native context stack, a fresh-handle
allocator, the per-device primary-context bookkeeping, the attribute
store, an error oracle (each fallible driver call consumes one entry of
`errs`; `true` means the driver reports a failure, which the Python
bindings surface as a raised exception) and a log of every driver call
issued.  A raised Python exception is embedded as an error flag `true` in
a result triple `Driver × Bool × Option Nat`; the final component is the
returned value (`none` embeds Python None or an exceptional exit).
-/

/-- A native context handle (opaque driver value, only compared/passed back). -/
abbrev Handle := Nat

/-- One entry of the driver-call log: which driver binding was invoked. -/
inductive DCall where
  | create (dev flags : Nat)
  | primaryRetain (dev : Nat)
  | primaryGetState (dev : Nat)
  | primarySetFlags (dev flags : Nat)
  | pushCurrent (h : Handle)
  | popCurrent
  | setCurrentCall (h : Option Handle)
  | getCurrentCall
  | synchronizeCall
  | getLimitCall (k : Nat)
  | setLimitCall (k v : Nat)
  | getCacheConfigCall
  | setCacheConfigCall (c : Nat)
  | getSharedMemConfigCall
  | setSharedMemConfigCall (c : Nat)
  | getFlagsCall
  | streamPriorityRangeCall
  | resetPersistingL2Call
deriving DecidableEq, Repr

/-- Modelled from the spec: the external driver state seen by one OS thread
(spec section 6).  `stack` is the per-thread native context stack, top
first; the current context is its top.  `nextHandle` allocates fresh
handles for `create`/first `retain_primary`.  `primaryHandles` and
`primaryFlags` record per-device primary-context state.  `limits`,
`cacheConfig`, `sharedMemConfig`, `ctxFlags`, `streamRange` are the
attribute store behind the accessor bindings.  `errs` is the error
oracle and `calls` the call log described above. -/
structure Driver where
  stack : List Handle
  nextHandle : Handle
  primaryHandles : List (Nat × Handle)
  primaryFlags : List (Nat × Nat)
  limits : Nat → Nat
  cacheConfig : Nat
  sharedMemConfig : Nat
  ctxFlags : Nat
  streamRange : Nat
  errs : List Bool
  calls : List DCall

/-- Append one entry to the driver-call log. -/
def Driver.note (d : Driver) (c : DCall) : Driver :=
  { d with calls := d.calls ++ [c] }

/-- Consume one answer of the error oracle; an exhausted oracle means the
call succeeds. -/
def Driver.takeErr (d : Driver) : Bool × Driver :=
  match d.errs with
  | [] => (false, d)
  | e :: rest => (e, { d with errs := rest })

/-- Modelled from the spec: `get_current() -> handle_or_none`
(cuCtxGetCurrent); a pure query of the top of the per-thread native
stack, it does not fail. -/
def ctx_get_current (d : Driver) : Option Handle × Driver :=
  (d.stack.head?, d.note .getCurrentCall)

/-- Modelled from the spec: `push_current(handle)` (cuCtxPushCurrent);
pushes `h` onto the per-thread native stack. -/
def ctx_push_current (h : Handle) (d : Driver) : Driver × Bool × Option Nat :=
  let d := d.note (.pushCurrent h)
  let (e, d) := d.takeErr
  if e then (d, true, none)
  else ({ d with stack := h :: d.stack }, false, none)

/-- Modelled from the spec: `pop_current() -> handle` (cuCtxPopCurrent);
pops the top of the per-thread native stack.  On an empty stack it is
modelled, following the spec (sections 4.1, 4.2 and 8: popping with
nothing current returns none without error), as a no-op returning none. -/
def ctx_pop_current (d : Driver) : Driver × Bool × Option Nat :=
  let d := d.note .popCurrent
  let (e, d) := d.takeErr
  if e then (d, true, none)
  else
    match d.stack with
    | [] => (d, false, none)
    | h :: t => ({ d with stack := t }, false, some h)

/-- Modelled from the spec: `set_current(handle_or_none)` (cuCtxSetCurrent);
binds `h` as the current context, replacing the top of the per-thread
native stack; a `none` argument unbinds the bound top (clears the current
context when nothing lies beneath it on the native stack). -/
def ctx_set_current (h : Option Handle) (d : Driver) : Driver × Bool × Option Nat :=
  let d := d.note (.setCurrentCall h)
  let (e, d) := d.takeErr
  if e then (d, true, none)
  else
    match h with
    | none => ({ d with stack := d.stack.tail }, false, none)
    | some h => ({ d with stack := h :: d.stack.tail }, false, none)

/-- Modelled from the spec: `create(device, flags) -> handle`
(cuCtxCreate as wrapped by the bindings); allocates a fresh handle and,
per spec section 4.1, has no side effect on the calling thread's current
context. -/
def ctx_create (dev flags : Nat) (d : Driver) : Driver × Bool × Option Handle :=
  let d := d.note (.create dev flags)
  let (e, d) := d.takeErr
  if e then (d, true, none)
  else ({ d with nextHandle := d.nextHandle + 1 }, false, some d.nextHandle)

/-- Modelled from the spec: `retain_primary(device) -> handle`
(cuDevicePrimaryCtxRetain); returns the device's primary-context handle,
allocating it on the first retain. -/
def device_primary_ctx_retain (dev : Nat) (d : Driver) : Driver × Bool × Option Handle :=
  let d := d.note (.primaryRetain dev)
  let (e, d) := d.takeErr
  if e then (d, true, none)
  else
    match List.lookup dev d.primaryHandles with
    | some h => (d, false, some h)
    | none =>
      ({ d with nextHandle := d.nextHandle + 1,
                primaryHandles := (dev, d.nextHandle) :: d.primaryHandles },
       false, some d.nextHandle)

/-- Modelled from the spec: `set_primary_flags(device, flags)`
(cuDevicePrimaryCtxSetFlags); records the flags of the device's primary
context. -/
def device_primary_ctx_set_flags_ (dev flags : Nat) (d : Driver) : Driver × Bool × Option Nat :=
  let d := d.note (.primarySetFlags dev flags)
  let (e, d) := d.takeErr
  if e then (d, true, none)
  else ({ d with primaryFlags := (dev, flags) :: d.primaryFlags }, false, none)

/-- Modelled from the spec: `get_primary_state(device)`
(cuDevicePrimaryCtxGetState); reports the recorded primary-context state
for the device (its flags, 0 when never set). -/
def device_primary_ctx_get_state (dev : Nat) (d : Driver) : Driver × Bool × Option Nat :=
  let d := d.note (.primaryGetState dev)
  let (e, d) := d.takeErr
  if e then (d, true, none)
  else (d, false, some ((List.lookup dev d.primaryFlags).getD 0))

/-- Modelled from the spec: `get_limit(kind) -> value`. -/
def ctx_get_limit (k : Nat) (d : Driver) : Driver × Bool × Option Nat :=
  let d := d.note (.getLimitCall k)
  let (e, d) := d.takeErr
  if e then (d, true, none) else (d, false, some (d.limits k))

/-- Modelled from the spec: `set_limit(kind, value)`. -/
def ctx_set_limit (k v : Nat) (d : Driver) : Driver × Bool × Option Nat :=
  let d := d.note (.setLimitCall k v)
  let (e, d) := d.takeErr
  if e then (d, true, none)
  else ({ d with limits := fun x => if x = k then v else d.limits x }, false, none)

/-- Modelled from the spec: `get_cache_config`. -/
def ctx_get_cache_config (d : Driver) : Driver × Bool × Option Nat :=
  let d := d.note .getCacheConfigCall
  let (e, d) := d.takeErr
  if e then (d, true, none) else (d, false, some d.cacheConfig)

/-- Modelled from the spec: `set_cache_config(cfg)`. -/
def ctx_set_cache_config (c : Nat) (d : Driver) : Driver × Bool × Option Nat :=
  let d := d.note (.setCacheConfigCall c)
  let (e, d) := d.takeErr
  if e then (d, true, none)
  else ({ d with cacheConfig := c }, false, none)

/-- Modelled from the spec: `get_shared_mem_config`. -/
def ctx_get_shared_mem_config (d : Driver) : Driver × Bool × Option Nat :=
  let d := d.note .getSharedMemConfigCall
  let (e, d) := d.takeErr
  if e then (d, true, none) else (d, false, some d.sharedMemConfig)

/-- Modelled from the spec: `set_shared_mem_config(cfg)`. -/
def ctx_set_shared_mem_config (c : Nat) (d : Driver) : Driver × Bool × Option Nat :=
  let d := d.note (.setSharedMemConfigCall c)
  let (e, d) := d.takeErr
  if e then (d, true, none)
  else ({ d with sharedMemConfig := c }, false, none)

/-- Modelled from the spec: `get_flags` (flags of the current context). -/
def ctx_get_flags (d : Driver) : Driver × Bool × Option Nat :=
  let d := d.note .getFlagsCall
  let (e, d) := d.takeErr
  if e then (d, true, none) else (d, false, some d.ctxFlags)

/-- Modelled from the spec: `get_stream_priority_range` (the two bounds
packed into one number). -/
def ctx_get_stream_priority_range (d : Driver) : Driver × Bool × Option Nat :=
  let d := d.note .streamPriorityRangeCall
  let (e, d) := d.takeErr
  if e then (d, true, none) else (d, false, some d.streamRange)

/-- Modelled from the spec: `reset_persisting_l2_cache`. -/
def ctx_reset_persisting_l2_cache (d : Driver) : Driver × Bool × Option Nat :=
  let d := d.note .resetPersistingL2Call
  let (e, d) := d.takeErr
  if e then (d, true, none) else (d, false, none)

/-- Modelled from the spec: `synchronize()`. -/
def ctx_synchronize (d : Driver) : Driver × Bool × Option Nat :=
  let d := d.note .synchronizeCall
  let (e, d) := d.takeErr
  if e then (d, true, none) else (d, false, none)

/-!
Context objects.  A Python context object is embedded as a record; the
`id` field embeds Python object identity (two objects are the same Python
object exactly when their `id`s agree; the manager state below allocates
`id`s from a counter, so every constructed object gets a fresh one).
-/

/-- A context object: `Context`/`ContextPtr` (owned, `is_primary` false) or
`PrimaryContext`/`PrimaryContextPtr` (`is_primary` true).  `handle` and
`dev` are the attributes of the same names; the module-registration set is
irrelevant to the claims and omitted. -/
structure Ctx where
  id : Nat
  handle : Handle
  dev : Nat
  is_primary : Bool
deriving DecidableEq, Repr

/-- A value passed to a Python callable in this module: a context object
or a number. -/
inductive PyVal where
  | ctxV (c : Ctx)
  | natV (n : Nat)
deriving DecidableEq, Repr

/-- Read a bound numeric parameter (every numeric parameter of a guarded
method receives a number whenever a call actually binds). -/
def PyVal.asNat : PyVal → Nat
  | .natV n => n
  | .ctxV _ => 0

/-- A Python function as the decorator receives it: the number of
parameters its def declares (self included) and the driver-state
semantics of its body once a call has bound exactly that many
arguments. -/
structure PyFunc where
  arity : Nat
  body : List PyVal → Driver → Driver × Bool × Option Nat

/-- A Python call: binding `args` against the declared parameters
succeeds only when the argument count matches the arity; any other count
raises TypeError before the body runs (error flag set, no value, driver
state untouched). -/
def PyFunc.call (f : PyFunc) (args : List PyVal) (d : Driver) :
    Driver × Bool × Option Nat :=
  if args.length = f.arity then f.body args d
  else (d, true, none)

/-- `_make_current_ctx` (`src/driver/core/context.py` lines 131-147): the
make-current guard.  A call on a decorated method runs
`wrapper(ctx, *args, **kwargs)`: the receiver arrives as `ctx`, the
remaining arguments as `args`.  `not_current` compares the driver
current context against the target handle; when they differ the target
is pushed via the raw driver push.  The wrapped call is
`func(*args, **kwargs)` — the receiver is NOT forwarded — so it binds
one argument short of the arity every wrapped def declares (self plus
its parameters) and raises TypeError before the wrapped body, and hence
before the underlying driver attribute call, ever runs.  There is no
try/finally, so a raised call skips the pop, and no return statement, so
a normal exit would return None. -/
def make_current_ctx (func : PyFunc) (ctx : Ctx) (args : List PyVal)
    (d : Driver) : Driver × Bool × Option Nat :=
  let (cur, d0) := ctx_get_current d
  if cur ≠ some ctx.handle then
    let (d1, e1, _) := ctx_push_current ctx.handle d0
    if e1 then (d1, true, none)
    else
      let (d2, e2, _) := func.call args d1
      if e2 then (d2, true, none)
      else
        let (d3, e3, _) := ctx_pop_current d2
        (d3, e3, none)
  else
    let (d2, e2, _) := func.call args d0
    (d2, e2, none)

/-- The undecorated `_ContextBase.get_flags(self)` (arity 1). -/
def ContextBase.get_flags_fn : PyFunc :=
  { arity := 1, body := fun _ d => ctx_get_flags d }

/-- The undecorated `_ContextBase.stream_priority_range(self)` (arity 1). -/
def ContextBase.stream_priority_range_fn : PyFunc :=
  { arity := 1, body := fun _ d => ctx_get_stream_priority_range d }

/-- The undecorated `_ContextBase.get_cache_config(self)` (arity 1). -/
def ContextBase.get_cache_config_fn : PyFunc :=
  { arity := 1, body := fun _ d => ctx_get_cache_config d }

/-- The undecorated `_ContextBase.set_cache_config(self, config)` (arity 2). -/
def ContextBase.set_cache_config_fn : PyFunc :=
  { arity := 2,
    body := fun a d => ctx_set_cache_config (PyVal.asNat (a.getD 1 (PyVal.natV 0))) d }

/-- The undecorated `_ContextBase.reset_persisting_l2_cache(self)` (arity 1). -/
def ContextBase.reset_persisting_l2_cache_fn : PyFunc :=
  { arity := 1, body := fun _ d => ctx_reset_persisting_l2_cache d }

/-- The undecorated `_ContextBase.get_limit(self, limit)` (arity 2). -/
def ContextBase.get_limit_fn : PyFunc :=
  { arity := 2,
    body := fun a d => ctx_get_limit (PyVal.asNat (a.getD 1 (PyVal.natV 0))) d }

/-- The undecorated `_ContextBase.set_limit(self, limit, value)` (arity 3). -/
def ContextBase.set_limit_fn : PyFunc :=
  { arity := 3,
    body := fun a d =>
      ctx_set_limit (PyVal.asNat (a.getD 1 (PyVal.natV 0)))
        (PyVal.asNat (a.getD 2 (PyVal.natV 0))) d }

/-- The undecorated `_ContextBase.get_shared_mem_config(self)` (arity 1). -/
def ContextBase.get_shared_mem_config_fn : PyFunc :=
  { arity := 1, body := fun _ d => ctx_get_shared_mem_config d }

/-- The undecorated `_ContextBase.set_shared_mem_config(self, config)` (arity 2). -/
def ContextBase.set_shared_mem_config_fn : PyFunc :=
  { arity := 2,
    body := fun a d => ctx_set_shared_mem_config (PyVal.asNat (a.getD 1 (PyVal.natV 0))) d }

/-- Guarded `ctx.get_flags()`: the wrapper with receiver `ctx` and no
further arguments. -/
def ContextBase.get_flags (ctx : Ctx) (d : Driver) : Driver × Bool × Option Nat :=
  make_current_ctx ContextBase.get_flags_fn ctx [] d

/-- Guarded `ctx.stream_priority_range()`. -/
def ContextBase.stream_priority_range (ctx : Ctx) (d : Driver) : Driver × Bool × Option Nat :=
  make_current_ctx ContextBase.stream_priority_range_fn ctx [] d

/-- Guarded `ctx.get_cache_config()`. -/
def ContextBase.get_cache_config (ctx : Ctx) (d : Driver) : Driver × Bool × Option Nat :=
  make_current_ctx ContextBase.get_cache_config_fn ctx [] d

/-- Guarded `ctx.set_cache_config(config)`. -/
def ContextBase.set_cache_config (ctx : Ctx) (config : Nat) (d : Driver) :
    Driver × Bool × Option Nat :=
  make_current_ctx ContextBase.set_cache_config_fn ctx [PyVal.natV config] d

/-- Guarded `ctx.reset_persisting_l2_cache()`. -/
def ContextBase.reset_persisting_l2_cache (ctx : Ctx) (d : Driver) :
    Driver × Bool × Option Nat :=
  make_current_ctx ContextBase.reset_persisting_l2_cache_fn ctx [] d

/-- Guarded `ctx.get_limit(limit)`. -/
def ContextBase.get_limit (ctx : Ctx) (limit : Nat) (d : Driver) :
    Driver × Bool × Option Nat :=
  make_current_ctx ContextBase.get_limit_fn ctx [PyVal.natV limit] d

/-- Guarded `ctx.set_limit(limit, value)`. -/
def ContextBase.set_limit (ctx : Ctx) (limit value : Nat) (d : Driver) :
    Driver × Bool × Option Nat :=
  make_current_ctx ContextBase.set_limit_fn ctx [PyVal.natV limit, PyVal.natV value] d

/-- Guarded `ctx.get_shared_mem_config()`. -/
def ContextBase.get_shared_mem_config (ctx : Ctx) (d : Driver) :
    Driver × Bool × Option Nat :=
  make_current_ctx ContextBase.get_shared_mem_config_fn ctx [] d

/-- Guarded `ctx.set_shared_mem_config(config)`. -/
def ContextBase.set_shared_mem_config (ctx : Ctx) (config : Nat) (d : Driver) :
    Driver × Bool × Option Nat :=
  make_current_ctx ContextBase.set_shared_mem_config_fn ctx [PyVal.natV config] d

/-- `PrimaryContextPtr.set_flags`: delegates to the device-level driver
call with `self.dev`. -/
def PrimaryContextPtr.set_flags (c : Ctx) (flags : Nat) (d : Driver) :
    Driver × Bool × Option Nat :=
  device_primary_ctx_set_flags_ c.dev flags d

/-- `PrimaryContextPtr.get_flags` (lines 226-227): overrides the guarded
base accessor; calls `device_primary_ctx_get_state(self.dev)` directly
(no guard, no activation) and has no return statement, so a normal exit
returns None. -/
def PrimaryContextPtr.get_flags (c : Ctx) (d : Driver) : Driver × Bool × Option Nat :=
  let (d1, e, _) := device_primary_ctx_get_state c.dev d
  (d1, e, none)

/-- One operation of the uniform capability set of `_ContextBase`
(the nine guarded methods). -/
inductive CapOp where
  | flagsOp
  | streamPriorityRangeOp
  | getCacheConfigOp
  | setCacheConfigOp (c : Nat)
  | resetPersistingL2Op
  | getLimitOp (k : Nat)
  | setLimitOp (k v : Nat)
  | getSharedMemConfigOp
  | setSharedMemConfigOp (c : Nat)
deriving DecidableEq, Repr

/-- Dispatch a capability-set operation to the corresponding guarded
method of `_ContextBase`. -/
def runCapOp : CapOp → Ctx → Driver → Driver × Bool × Option Nat
  | .flagsOp, ctx, d => ContextBase.get_flags ctx d
  | .streamPriorityRangeOp, ctx, d => ContextBase.stream_priority_range ctx d
  | .getCacheConfigOp, ctx, d => ContextBase.get_cache_config ctx d
  | .setCacheConfigOp c, ctx, d => ContextBase.set_cache_config ctx c d
  | .resetPersistingL2Op, ctx, d => ContextBase.reset_persisting_l2_cache ctx d
  | .getLimitOp k, ctx, d => ContextBase.get_limit ctx k d
  | .setLimitOp k v, ctx, d => ContextBase.set_limit ctx k v d
  | .getSharedMemConfigOp, ctx, d => ContextBase.get_shared_mem_config ctx d
  | .setSharedMemConfigOp c, ctx, d => ContextBase.set_shared_mem_config ctx c d

/-!
The thread-local mirror (`_ContextStack`) and the manager singleton
(`ContextManager`).  The mirror is a Python list that appends at the tail
and pops from the tail; it is embedded as a Lean list that stores the
most recent element first (head = top), the order-reversal of the same
data.  The manager singleton and its one thread of interest are embedded
as one explicit state record: the driver state of that thread, the mirror
list `contexts` (attribute `__contexts`), the primary-context registry
`primary` (attribute `__primary`, an association list keyed by device)
and the object-identity allocator `nextId`.
-/

/-- `_ContextStack.push`: append to the mirror (top stored first here). -/
def ContextStack.push (c : Ctx) (s : List Ctx) : List Ctx :=
  c :: s

/-- `_ContextStack.pop`: remove and return the top, or return none
leaving the empty mirror unchanged. -/
def ContextStack.pop (s : List Ctx) : Option Ctx × List Ctx :=
  match s with
  | [] => (none, [])
  | c :: t => (some c, t)

/-- `_ContextStack.current`: peek at the top, none when empty. -/
def ContextStack.current (s : List Ctx) : Option Ctx :=
  s.head?

/-- The state touched by the manager on one thread: driver, mirror,
primary registry and the object-identity counter. -/
structure MgrState where
  driver : Driver
  contexts : List Ctx
  primary : List (Nat × Ctx)
  nextId : Nat

/-- `Context.__init__` (lines 256-263): obtains a fresh handle from
`ctx_create(dev, flags)` and wraps it in a new owned context object
(`is_primary` false).  The `weakref.finalize` registration only schedules
the eventual `ctx_destroy` and is not part of the call semantics. -/
def Context.init (dev flags : Nat) (s : MgrState) : MgrState × Bool × Option Ctx :=
  let (d, e, h) := ctx_create dev flags s.driver
  match e, h with
  | false, some h =>
    ({ s with driver := d, nextId := s.nextId + 1 }, false,
     some { id := s.nextId, handle := h, dev := dev, is_primary := false })
  | _, _ => ({ s with driver := d }, true, none)

/-- `PrimaryContext.__init__` (lines 229-238): retains the device's
primary context and wraps the handle in a new primary context object;
`set_flags` runs only when a nonzero `flags` was passed (the registry
constructs with the default `flags = 0`). -/
def PrimaryContext.init (dev flags : Nat) (s : MgrState) : MgrState × Bool × Option Ctx :=
  let (d, e, h) := device_primary_ctx_retain dev s.driver
  match e, h with
  | false, some h =>
    let c : Ctx := { id := s.nextId, handle := h, dev := dev, is_primary := true }
    let s1 : MgrState := { s with driver := d, nextId := s.nextId + 1 }
    if flags ≠ 0 then
      let (d2, e2, _) := PrimaryContextPtr.set_flags c flags s1.driver
      ({ s1 with driver := d2 }, e2, if e2 then none else some c)
    else (s1, false, some c)
  | _, _ => ({ s with driver := d }, true, none)

/-- `ContextManager.create_context` (lines 58-59): `Context(dev, flags)`. -/
def ContextManager.create_context (s : MgrState) (dev : Nat) (flags : Nat := 0) :
    MgrState × Bool × Option Ctx :=
  Context.init dev flags s

/-- `ContextManager.retain_primary` (lines 61-65): `__primary[dev]` looks
the device up in the registry, constructing `PrimaryContext(dev)` and
memoizing it on a miss (`_PrimaryContextDict.__missing__`, lines 31-36);
then `set_flags(flags)` is applied when `flags` is truthy. -/
def ContextManager.retain_primary (s : MgrState) (dev : Nat) (flags : Nat := 0) :
    MgrState × Bool × Option Ctx :=
  match List.lookup dev s.primary with
  | some pctx =>
    if flags ≠ 0 then
      let (d, e, _) := PrimaryContextPtr.set_flags pctx flags s.driver
      ({ s with driver := d }, e, if e then none else some pctx)
    else (s, false, some pctx)
  | none =>
    match PrimaryContext.init dev 0 s with
    | (s1, false, some pctx) =>
      let s2 : MgrState := { s1 with primary := (dev, pctx) :: s1.primary }
      if flags ≠ 0 then
        let (d, e, _) := PrimaryContextPtr.set_flags pctx flags s2.driver
        ({ s2 with driver := d }, e, if e then none else some pctx)
      else (s2, false, some pctx)
    | (s1, _, _) => (s1, true, none)

/-- `ContextManager.get_current` (lines 67-69): the top of the mirror. -/
def ContextManager.get_current (s : MgrState) : Option Ctx :=
  ContextStack.current s.contexts

/-- `ContextManager.set_current` (lines 71-78): pops the mirror, then
`ctx_set_current(ctx)` (clearing when `ctx` is absent, else binding
`ctx.handle` and pushing `ctx` onto the mirror), returning the popped
previously-current context.  A driver failure raises after the mirror was
already popped. -/
def ContextManager.set_current (s : MgrState) (ctx : Option Ctx := none) :
    MgrState × Bool × Option Ctx :=
  let (old_ctx, m) := ContextStack.pop s.contexts
  match ctx with
  | none =>
    let (d, e, _) := ctx_set_current none s.driver
    ({ s with driver := d, contexts := m }, e, if e then none else old_ctx)
  | some c =>
    let (d, e, _) := ctx_set_current (some c.handle) s.driver
    if e then ({ s with driver := d, contexts := m }, true, none)
    else ({ s with driver := d, contexts := ContextStack.push c m }, false, old_ctx)

/-- `ContextManager.push` (lines 80-82): the raw driver push first, then
the mirror push; a driver failure raises before the mirror is touched. -/
def ContextManager.push (s : MgrState) (c : Ctx) : MgrState × Bool × Option Ctx :=
  let (d, e, _) := ctx_push_current c.handle s.driver
  if e then ({ s with driver := d }, true, none)
  else ({ s with driver := d, contexts := ContextStack.push c s.contexts }, false, none)

/-- `ContextManager.pop` (lines 84-86): the raw driver pop first, then
the mirror pop, returning the popped mirror entry; a driver failure
raises before the mirror is touched. -/
def ContextManager.pop (s : MgrState) : MgrState × Bool × Option Ctx :=
  let (d, e, _) := ctx_pop_current s.driver
  if e then ({ s with driver := d }, true, none)
  else
    let (c, m) := ContextStack.pop s.contexts
    ({ s with driver := d, contexts := m }, false, c)

/-- One manager-mediated activation operation (claim C4.). -/
inductive MOp where
  | setc (c : Option Ctx)
  | mpush (c : Ctx)
  | mpop

/-- Run one activation operation, keeping the resulting state (a raised
driver failure propagates to the caller; the state it leaves behind is
kept). -/
def runMOp (s : MgrState) : MOp → MgrState
  | .setc c => (ContextManager.set_current s c).1
  | .mpush c => (ContextManager.push s c).1
  | .mpop => (ContextManager.pop s).1

/-- Run a sequence of manager-mediated activation operations. -/
def runMOps (s : MgrState) (ops : List MOp) : MgrState :=
  ops.foldl runMOp s

/-- Run a sequence of manager `push`/`pop` calls (`some c` is
`push(c)`, `none` is `pop()`). -/
def runPushPop (s : MgrState) (ops : List (Option Ctx)) : MgrState :=
  ops.foldl (fun s o =>
    match o with
    | some c => (ContextManager.push s c).1
    | none => (ContextManager.pop s).1) s

/-- Stack discipline stated from the spec: after a sequence of pushes and
pops, the mirror holds the pushed-and-not-yet-popped contexts, most
recent first (so its top is the last pushed-and-not-yet-popped context).
This is the spec-side description the mirror evolution is compared
against. -/
def specMirrorStack (m : List Ctx) (ops : List (Option Ctx)) : List Ctx :=
  ops.foldl (fun m o =>
    match o with
    | some c => c :: m
    | none => m.tail) m

/-- The mirror is in sync with the driver stack: the mirror's handles are
exactly the native per-thread stack (spec section 3 invariant). -/
def Sync (s : MgrState) : Prop :=
  s.contexts.map Ctx.handle = s.driver.stack

/-- No driver failure is pending in the error oracle: every driver call
in the run at hand succeeds. -/
def NoErrs (s : MgrState) : Prop :=
  s.driver.errs = []

/-- Registry well-formedness: every registry entry stores a context whose
`dev` attribute is its own key. -/
def MgrWF (s : MgrState) : Prop :=
  ∀ p ∈ s.primary, p.2.dev = p.1

/-- A concrete driver state with nothing current and no failure injected. -/
def dInit : Driver :=
  { stack := [], nextHandle := 1, primaryHandles := [], primaryFlags := [],
    limits := fun _ => 0, cacheConfig := 0, sharedMemConfig := 0, ctxFlags := 0,
    streamRange := 0, errs := [], calls := [] }

/-- A concrete manager state over `dInit` with an empty mirror and empty
registry. -/
def sInit : MgrState :=
  { driver := dInit, contexts := [], primary := [], nextId := 0 }

/-- A sample owned context (handle 1 on device 0). -/
def cA : Ctx := { id := 0, handle := 1, dev := 0, is_primary := false }

/-- A second sample owned context (handle 2 on device 0). -/
def cB : Ctx := { id := 1, handle := 2, dev := 0, is_primary := false }

/-- A driver state on whose thread `cA` is current, with every limit
reported as 42. -/
def dCur : Driver :=
  { dInit with stack := [1], limits := fun _ => 42 }

/-- A manager state over `dCur` whose mirror holds `cA`. -/
def sCur : MgrState :=
  { sInit with driver := dCur, contexts := [cA] }

/-- A driver state with nothing current whose oracle lets the next driver
call succeed and makes the one after it fail. -/
def dFail : Driver :=
  { dInit with errs := [false, true] }

/-- A driver state whose oracle makes the next driver call fail. -/
def dErr : Driver :=
  { dInit with errs := [true] }

/-- A manager state over `dErr` whose mirror holds `cA`. -/
def sErr : MgrState :=
  { sInit with driver := dErr, contexts := [cA] }

/-!
Helper lemmas: record-projection and oracle bookkeeping, and the
behaviour of each driver primitive when no failure is injected.
-/

@[simp] theorem Driver.note_stack (d : Driver) (c : DCall) : (d.note c).stack = d.stack := rfl

@[simp] theorem Driver.note_errs (d : Driver) (c : DCall) : (d.note c).errs = d.errs := rfl

@[simp] theorem Driver.note_calls (d : Driver) (c : DCall) :
    (d.note c).calls = d.calls ++ [c] := rfl

@[simp] theorem Driver.note_primaryFlags (d : Driver) (c : DCall) :
    (d.note c).primaryFlags = d.primaryFlags := rfl

@[simp] theorem Driver.note_primaryHandles (d : Driver) (c : DCall) :
    (d.note c).primaryHandles = d.primaryHandles := rfl

@[simp] theorem Driver.note_nextHandle (d : Driver) (c : DCall) :
    (d.note c).nextHandle = d.nextHandle := rfl

theorem Driver.takeErr_of_nil {d : Driver} (h : d.errs = []) : d.takeErr = (false, d) := by
  unfold Driver.takeErr
  rw [h]

theorem Driver.takeErr_of_cons {d : Driver} {e : Bool} {rest : List Bool}
    (h : d.errs = e :: rest) : d.takeErr = (e, { d with errs := rest }) := by
  unfold Driver.takeErr
  rw [h]

theorem ctx_push_current_ok (h : Handle) {d : Driver} (he : d.errs = []) :
    ctx_push_current h d
      = ({ d with stack := h :: d.stack, calls := d.calls ++ [DCall.pushCurrent h] },
         false, none) := by
  simp [ctx_push_current, Driver.takeErr_of_nil, Driver.note, he]

theorem ctx_pop_current_ok {d : Driver} (he : d.errs = []) :
    ctx_pop_current d
      = ({ d with stack := d.stack.tail, calls := d.calls ++ [DCall.popCurrent] },
         false, d.stack.head?) := by
  rcases d with ⟨stack, nh, ph, pf, lim, cc, smc, cf, sr, errs, calls⟩
  simp only at he
  subst he
  cases stack <;> simp [ctx_pop_current, Driver.takeErr, Driver.note]

theorem ctx_set_current_some_ok (h : Handle) {d : Driver} (he : d.errs = []) :
    ctx_set_current (some h) d
      = ({ d with stack := h :: d.stack.tail,
                  calls := d.calls ++ [DCall.setCurrentCall (some h)] },
         false, none) := by
  simp [ctx_set_current, Driver.takeErr_of_nil, Driver.note, he]

theorem ctx_set_current_none_ok {d : Driver} (he : d.errs = []) :
    ctx_set_current none d
      = ({ d with stack := d.stack.tail,
                  calls := d.calls ++ [DCall.setCurrentCall none] },
         false, none) := by
  simp [ctx_set_current, Driver.takeErr_of_nil, Driver.note, he]

theorem runMOp_preserves {s : MgrState} (op : MOp) (hs : Sync s) (he : NoErrs s) :
    Sync (runMOp s op) ∧ NoErrs (runMOp s op) := by
  obtain ⟨d, cs, pr, ni⟩ := s
  unfold Sync NoErrs at *
  simp only at hs he ⊢
  cases op with
  | setc c =>
    cases c with
    | none =>
      cases cs with
      | nil =>
        simp only [List.map_nil] at hs
        simp [runMOp, ContextManager.set_current, ContextStack.pop,
              ctx_set_current_none_ok he, he, ← hs]
      | cons c0 tl =>
        simp only [List.map_cons] at hs
        simp [runMOp, ContextManager.set_current, ContextStack.pop,
              ctx_set_current_none_ok he, he, ← hs]
    | some c =>
      cases cs with
      | nil =>
        simp only [List.map_nil] at hs
        simp [runMOp, ContextManager.set_current, ContextStack.pop, ContextStack.push,
              ctx_set_current_some_ok c.handle he, he, ← hs]
      | cons c0 tl =>
        simp only [List.map_cons] at hs
        simp [runMOp, ContextManager.set_current, ContextStack.pop, ContextStack.push,
              ctx_set_current_some_ok c.handle he, he, ← hs]
  | mpush c =>
    simp [runMOp, ContextManager.push, ContextStack.push,
          ctx_push_current_ok c.handle he, he, hs]
  | mpop =>
    cases cs with
    | nil =>
      simp only [List.map_nil] at hs
      simp [runMOp, ContextManager.pop, ContextStack.pop,
            ctx_pop_current_ok he, he, ← hs]
    | cons c0 tl =>
      simp only [List.map_cons] at hs
      simp [runMOp, ContextManager.pop, ContextStack.pop,
            ctx_pop_current_ok he, he, ← hs]

theorem runMOps_preserves (ops : List MOp) {s : MgrState} (hs : Sync s) (he : NoErrs s) :
    Sync (runMOps s ops) ∧ NoErrs (runMOps s ops) := by
  induction ops generalizing s with
  | nil => exact ⟨hs, he⟩
  | cons op rest ih =>
    have h := runMOp_preserves op hs he
    exact ih h.1 h.2

/-- C4: after any sequence of manager-mediated activation operations
(set_current, push, pop) on one thread, started from a state whose mirror
is in sync with the driver stack (and with every driver call in the
sequence succeeding), the top of the mirror is the context that is
driver-current on that thread, and the mirror is empty exactly when no
driver context is current. -/
theorem C4_manager_mirror_sync (s : MgrState) (ops : List MOp) (hs : Sync s) (he : NoErrs s) :
    (ContextManager.get_current (runMOps s ops)).map Ctx.handle
        = (runMOps s ops).driver.stack.head?
      ∧ ((runMOps s ops).contexts = [] ↔ (runMOps s ops).driver.stack.head? = none) := by
  obtain ⟨h1, -⟩ := runMOps_preserves ops hs he
  unfold Sync at h1
  constructor
  · unfold ContextManager.get_current ContextStack.current
    rw [← h1, List.head?_map]
  · rw [← h1]
    constructor
    · intro h2
      rw [h2]
      rfl
    · intro h2
      cases hc : (runMOps s ops).contexts with
      | nil => rfl
      | cons a t =>
        rw [hc] at h2
        simp at h2

/-- Witness for C4 at a concrete run: push cA, set cB current, pop. -/
theorem C4_manager_mirror_sync_witness :
    (ContextManager.get_current (runMOps sInit [MOp.mpush cA, MOp.setc (some cB), MOp.mpop])).map
        Ctx.handle
        = (runMOps sInit [MOp.mpush cA, MOp.setc (some cB), MOp.mpop]).driver.stack.head?
      ∧ ((runMOps sInit [MOp.mpush cA, MOp.setc (some cB), MOp.mpop]).contexts = []
          ↔ (runMOps sInit [MOp.mpush cA, MOp.setc (some cB), MOp.mpop]).driver.stack.head?
              = none) :=
  C4_manager_mirror_sync sInit [MOp.mpush cA, MOp.setc (some cB), MOp.mpop] rfl rfl

theorem push_step {s : MgrState} (c : Ctx) (he : NoErrs s) :
    (ContextManager.push s c).1.contexts = c :: s.contexts
      ∧ NoErrs (ContextManager.push s c).1 := by
  unfold NoErrs at *
  simp [ContextManager.push, ContextStack.push, ctx_push_current_ok c.handle he, he]

theorem pop_step {s : MgrState} (he : NoErrs s) :
    (ContextManager.pop s).1.contexts = s.contexts.tail
      ∧ NoErrs (ContextManager.pop s).1 := by
  unfold NoErrs at *
  cases hc : s.contexts with
  | nil => simp [ContextManager.pop, ContextStack.pop, ctx_pop_current_ok he, he, hc]
  | cons c0 tl => simp [ContextManager.pop, ContextStack.pop, ctx_pop_current_ok he, he, hc]

theorem runPushPop_mirror (ops : List (Option Ctx)) {s : MgrState} (he : NoErrs s) :
    (runPushPop s ops).contexts = specMirrorStack s.contexts ops
      ∧ NoErrs (runPushPop s ops) := by
  induction ops generalizing s with
  | nil => exact ⟨rfl, he⟩
  | cons op rest ih =>
    cases op with
    | some c =>
      obtain ⟨h1, h2⟩ := push_step c he
      obtain ⟨h3, h4⟩ := ih h2
      refine ⟨?_, ?_⟩
      · simp only [runPushPop, List.foldl_cons, specMirrorStack] at h3 ⊢
        rw [h3, h1]
      · simp only [runPushPop, List.foldl_cons] at h4 ⊢
        exact h4
    | none =>
      obtain ⟨h1, h2⟩ := pop_step he
      obtain ⟨h3, h4⟩ := ih h2
      refine ⟨?_, ?_⟩
      · simp only [runPushPop, List.foldl_cons, specMirrorStack] at h3 ⊢
        rw [h3, h1]
      · simp only [runPushPop, List.foldl_cons] at h4 ⊢
        exact h4

/-- C7: for every sequence of manager push/pop calls on one thread (with
the driver reporting no failure), the mirror evolves in exact stack
discipline — after any prefix it equals the spec-side stack of
pushed-and-not-yet-popped contexts, so its top is the last such context —
and calling pop() with an empty mirror returns none without raising. -/
theorem C7_push_pop_discipline (s : MgrState) (ops : List (Option Ctx)) (he : NoErrs s) :
    (runPushPop s ops).contexts = specMirrorStack s.contexts ops
      ∧ (runPushPop s ops).contexts.head? = (specMirrorStack s.contexts ops).head?
      ∧ (s.contexts = [] →
          (ContextManager.pop s).2.1 = false ∧ (ContextManager.pop s).2.2 = none) := by
  obtain ⟨h1, -⟩ := runPushPop_mirror ops he
  refine ⟨h1, by rw [h1], ?_⟩
  intro hc
  unfold NoErrs at he
  simp [ContextManager.pop, ContextStack.pop, ctx_pop_current_ok he, hc]

/-- Witness for C7: push cA, push cB, pop from the empty initial state,
and pop on the empty initial mirror. -/
theorem C7_push_pop_discipline_witness :
    (runPushPop sInit [some cA, some cB, none]).contexts
        = specMirrorStack sInit.contexts [some cA, some cB, none]
      ∧ (ContextManager.pop sInit).2.1 = false
      ∧ (ContextManager.pop sInit).2.2 = none :=
  ⟨(C7_push_pop_discipline sInit [some cA, some cB, none] rfl).1,
   (C7_push_pop_discipline sInit [some cA, some cB, none] rfl).2.2 rfl⟩

theorem ContextStack.pop_eq (l : List Ctx) : ContextStack.pop l = (l.head?, l.tail) := by
  cases l <;> rfl

theorem set_current_some_eq {s : MgrState} (c : Ctx) (he : NoErrs s) :
    ContextManager.set_current s (some c)
      = ({ s with
            driver := { s.driver with
                         stack := c.handle :: s.driver.stack.tail,
                         calls := s.driver.calls ++ [DCall.setCurrentCall (some c.handle)] },
            contexts := c :: s.contexts.tail },
         false, s.contexts.head?) := by
  unfold NoErrs at he
  simp [ContextManager.set_current, ContextStack.pop_eq, ContextStack.push,
        ctx_set_current_some_ok c.handle he]

theorem set_current_none_eq {s : MgrState} (he : NoErrs s) :
    ContextManager.set_current s none
      = ({ s with
            driver := { s.driver with
                         stack := s.driver.stack.tail,
                         calls := s.driver.calls ++ [DCall.setCurrentCall none] },
            contexts := s.contexts.tail },
         false, s.contexts.head?) := by
  unfold NoErrs at he
  simp [ContextManager.set_current, ContextStack.pop_eq, ctx_set_current_none_ok he]

/-- C5: set_current(ctx) pops the mirror top, binds the driver to the
handle of ctx and pushes ctx onto the mirror, returning the
previously-current context; set_current(none) immediately afterwards pops
the mirror (pushing nothing, since no context was supplied), unbinds what
the first call bound, and returns ctx as the previously-current value —
in particular it clears the driver-current context whenever nothing else
lay beneath it on the native stack. -/
theorem C5_set_current_contract (s : MgrState) (c : Ctx) (he : NoErrs s) :
    (ContextManager.set_current s (some c)).2.1 = false
  ∧ (ContextManager.set_current s (some c)).2.2 = ContextStack.current s.contexts
  ∧ (ContextManager.set_current s (some c)).1.contexts = c :: s.contexts.tail
  ∧ (ContextManager.set_current s (some c)).1.driver.stack.head? = some c.handle
  ∧ (ContextManager.set_current (ContextManager.set_current s (some c)).1 none).2.1 = false
  ∧ (ContextManager.set_current (ContextManager.set_current s (some c)).1 none).2.2 = some c
  ∧ (ContextManager.set_current (ContextManager.set_current s (some c)).1 none).1.contexts
      = s.contexts.tail
  ∧ (ContextManager.set_current (ContextManager.set_current s (some c)).1 none).1.driver.stack
      = s.driver.stack.tail
  ∧ (s.driver.stack.tail = [] →
      (ContextManager.set_current
          (ContextManager.set_current s (some c)).1 none).1.driver.stack.head? = none) := by
  rw [set_current_some_eq c he]
  have he1 : NoErrs ({ s with
      driver := { s.driver with
                   stack := c.handle :: s.driver.stack.tail,
                   calls := s.driver.calls ++ [DCall.setCurrentCall (some c.handle)] },
      contexts := c :: s.contexts.tail } : MgrState) := he
  rw [set_current_none_eq he1]
  refine ⟨rfl, rfl, rfl, rfl, rfl, rfl, rfl, rfl, ?_⟩
  intro h2
  simp [h2]

/-- Witness for C5 at the concrete state sCur (mirror [cA], driver stack
[1]) and context cB. -/
theorem C5_set_current_contract_witness :
    (ContextManager.set_current sCur (some cB)).2.1 = false
  ∧ (ContextManager.set_current sCur (some cB)).2.2 = ContextStack.current sCur.contexts
  ∧ (ContextManager.set_current sCur (some cB)).1.contexts = cB :: sCur.contexts.tail
  ∧ (ContextManager.set_current sCur (some cB)).1.driver.stack.head? = some cB.handle
  ∧ (ContextManager.set_current (ContextManager.set_current sCur (some cB)).1 none).2.1 = false
  ∧ (ContextManager.set_current (ContextManager.set_current sCur (some cB)).1 none).2.2 = some cB
  ∧ (ContextManager.set_current (ContextManager.set_current sCur (some cB)).1 none).1.contexts
      = sCur.contexts.tail
  ∧ (ContextManager.set_current (ContextManager.set_current sCur (some cB)).1 none).1.driver.stack
      = sCur.driver.stack.tail
  ∧ (sCur.driver.stack.tail = [] →
      (ContextManager.set_current
          (ContextManager.set_current sCur (some cB)).1 none).1.driver.stack.head? = none) :=
  C5_set_current_contract sCur cB rfl

theorem ctx_create_ok (dev flags : Nat) {d : Driver} (he : d.errs = []) :
    ctx_create dev flags d
      = ({ d with nextHandle := d.nextHandle + 1,
                  calls := d.calls ++ [DCall.create dev flags] },
         false, some d.nextHandle) := by
  simp [ctx_create, Driver.takeErr_of_nil, Driver.note, he]

/-- C8: create_context(dev, flags) performs exactly one driver create
call, returns a new owned context (fresh object identity, the fresh
handle the driver allocated, is_primary false), and leaves both the
mirror stack and the driver stack of the calling thread unchanged. -/
theorem C8_create_context_fresh (s : MgrState) (dev flags : Nat) (he : NoErrs s) :
    (ContextManager.create_context s dev flags).2.1 = false
  ∧ (ContextManager.create_context s dev flags).2.2
      = some { id := s.nextId, handle := s.driver.nextHandle, dev := dev, is_primary := false }
  ∧ (ContextManager.create_context s dev flags).1.contexts = s.contexts
  ∧ (ContextManager.create_context s dev flags).1.driver.stack = s.driver.stack
  ∧ (ContextManager.create_context s dev flags).1.driver.calls
      = s.driver.calls ++ [DCall.create dev flags] := by
  unfold NoErrs at he
  simp [ContextManager.create_context, Context.init, ctx_create_ok dev flags he]

/-- Witness for C8 at the concrete state sCur on device 3 with flags 7. -/
theorem C8_create_context_fresh_witness :
    (ContextManager.create_context sCur 3 7).2.1 = false
  ∧ (ContextManager.create_context sCur 3 7).2.2
      = some { id := sCur.nextId, handle := sCur.driver.nextHandle, dev := 3,
               is_primary := false }
  ∧ (ContextManager.create_context sCur 3 7).1.contexts = sCur.contexts
  ∧ (ContextManager.create_context sCur 3 7).1.driver.stack = sCur.driver.stack
  ∧ (ContextManager.create_context sCur 3 7).1.driver.calls
      = sCur.driver.calls ++ [DCall.create 3 7] :=
  C8_create_context_fresh sCur 3 7 rfl

/-- C10: PrimaryContextPtr.get_flags bypasses the make-current guard of
the base capability set: it issues exactly one device-level
primary-state query for its own device, never touches the per-thread
context stack (no activation), and returns none regardless of the state
the driver reports. -/
theorem C10_primary_get_flags_bypass (c : Ctx) (d : Driver) :
    (PrimaryContextPtr.get_flags c d).2.2 = none
  ∧ (PrimaryContextPtr.get_flags c d).1.stack = d.stack
  ∧ (PrimaryContextPtr.get_flags c d).1.calls
      = d.calls ++ [DCall.primaryGetState c.dev] := by
  obtain ⟨stack, nh, ph, pf, lim, cc, smc, cf, sr, errs, calls⟩ := d
  cases errs with
  | nil =>
    simp [PrimaryContextPtr.get_flags, device_primary_ctx_get_state, Driver.note,
          Driver.takeErr]
  | cons e rest =>
    cases e <;>
      simp [PrimaryContextPtr.get_flags, device_primary_ctx_get_state, Driver.note,
            Driver.takeErr]

/-- C2 fails on the code: the wrapper forwards only `args` to the
wrapped function — `func(*args, **kwargs)` drops the receiver — so the
guarded get_limit raises TypeError at the wrapped call and never returns
the value the driver reports (the raw driver accessor would return 42
while cA is current).  The driver never even receives the attribute
call: only the get-current query is logged.  This theorem evaluates the
code at that failing input. -/
theorem C2_get_limit_never_returns_value :
    (ContextBase.get_limit cA 3 dCur).2.1 = true
  ∧ (ContextBase.get_limit cA 3 dCur).2.2 = none
  ∧ (ContextBase.get_limit cA 3 dCur).1.calls = dCur.calls ++ [DCall.getCurrentCall]
  ∧ (ctx_get_limit 3 dCur).2.2 = some 42
  ∧ dCur.stack.head? = some cA.handle := by
  refine ⟨rfl, rfl, rfl, rfl, rfl⟩

/-- C1 fails on the code: the make-current wrapper has no try/finally,
so when the wrapped call raises — in the source every guarded call
raises TypeError, because the wrapper drops the receiver — the guard pop
is skipped and the failure propagates with the target context still
pushed.  Evaluated at a context that is not current (empty driver
stack): after the failing guarded get_limit the driver stack is [1], not
the original [], so the driver current context changed across the
failing call. -/
theorem C1_guard_skips_pop_on_failure :
    dFail.stack = []
  ∧ (ContextBase.get_limit cA 3 dFail).2.1 = true
  ∧ (ContextBase.get_limit cA 3 dFail).1.stack = [cA.handle]
  ∧ (ContextBase.get_limit cA 3 dFail).1.stack.head? ≠ dFail.stack.head? := by
  refine ⟨rfl, rfl, rfl, ?_⟩
  decide

/-- C6 fails on the code: every capability-set operation raises
TypeError, because the wrapper forwards only `args` to the wrapped
function, dropping the receiver (line 144), so no guarded call succeeds
even though the driver reports no failure (the error oracle of dCur is
empty); moreover, when the target was not current, the failure
propagates with the target still pushed.  This theorem evaluates all
nine guarded operations at concrete inputs: each raises, both when the
context is not current (cB on dCur) and when it is current (cA on dCur),
and the not-current get_limit call leaves cB pushed. -/
theorem C6_capability_calls_raise :
    (runCapOp CapOp.flagsOp cB dCur).2.1 = true
  ∧ (runCapOp CapOp.streamPriorityRangeOp cB dCur).2.1 = true
  ∧ (runCapOp CapOp.getCacheConfigOp cB dCur).2.1 = true
  ∧ (runCapOp (CapOp.setCacheConfigOp 1) cB dCur).2.1 = true
  ∧ (runCapOp CapOp.resetPersistingL2Op cB dCur).2.1 = true
  ∧ (runCapOp (CapOp.getLimitOp 3) cB dCur).2.1 = true
  ∧ (runCapOp (CapOp.setLimitOp 3 9) cB dCur).2.1 = true
  ∧ (runCapOp CapOp.getSharedMemConfigOp cB dCur).2.1 = true
  ∧ (runCapOp (CapOp.setSharedMemConfigOp 1) cB dCur).2.1 = true
  ∧ (runCapOp (CapOp.getLimitOp 3) cA dCur).2.1 = true
  ∧ (runCapOp (CapOp.getLimitOp 3) cB dCur).1.stack = cB.handle :: dCur.stack
  ∧ dCur.errs = [] := by
  refine ⟨rfl, rfl, rfl, rfl, rfl, rfl, rfl, rfl, rfl, rfl, rfl, rfl⟩

/-- C9: Manager.push and Manager.pop issue the raw driver stack primitive
before touching the thread-local mirror: when the driver call fails the
failure propagates with the mirror unchanged, and (unconditionally, so in
particular when the mirror is empty) each call appends exactly its driver
stack primitive to the driver-call log. -/
theorem C9_driver_call_precedes_mirror (s : MgrState) (c : Ctx) (rest : List Bool) :
    (s.driver.errs = true :: rest →
        (ContextManager.push s c).2.1 = true
      ∧ (ContextManager.push s c).1.contexts = s.contexts
      ∧ (ContextManager.pop s).2.1 = true
      ∧ (ContextManager.pop s).1.contexts = s.contexts)
  ∧ (ContextManager.push s c).1.driver.calls
      = s.driver.calls ++ [DCall.pushCurrent c.handle]
  ∧ (ContextManager.pop s).1.driver.calls = s.driver.calls ++ [DCall.popCurrent] := by
  obtain ⟨⟨stack, nh, ph, pf, lim, cc, smc, cf, sr, errs, calls⟩, cs, pr, ni⟩ := s
  refine ⟨?_, ?_, ?_⟩
  · intro herr
    simp only at herr
    subst herr
    simp [ContextManager.push, ContextManager.pop, ctx_push_current, ctx_pop_current,
          Driver.note, Driver.takeErr]
  · cases errs with
    | nil =>
      simp [ContextManager.push, ctx_push_current, Driver.note, Driver.takeErr]
    | cons e r =>
      cases e <;>
        simp [ContextManager.push, ctx_push_current, Driver.note, Driver.takeErr]
  · cases errs with
    | nil =>
      cases stack <;>
        simp [ContextManager.pop, ctx_pop_current, Driver.note, Driver.takeErr,
              ContextStack.pop]
    | cons e r =>
      cases e <;> cases stack <;>
        simp [ContextManager.pop, ctx_pop_current, Driver.note, Driver.takeErr,
              ContextStack.pop]

/-- Witness for C9: at sErr (next driver call fails, mirror [cA]) the
failing push and pop leave the mirror unchanged, and at sInit (empty
mirror) pop still issues the driver pop. -/
theorem C9_driver_call_precedes_mirror_witness :
    ((ContextManager.push sErr cB).2.1 = true
      ∧ (ContextManager.push sErr cB).1.contexts = sErr.contexts
      ∧ (ContextManager.pop sErr).2.1 = true
      ∧ (ContextManager.pop sErr).1.contexts = sErr.contexts)
  ∧ (ContextManager.pop sInit).1.driver.calls
      = sInit.driver.calls ++ [DCall.popCurrent] :=
  ⟨(C9_driver_call_precedes_mirror sErr cB []).1 rfl,
   (C9_driver_call_precedes_mirror sInit cB []).2.2⟩

theorem lookup_cons_self {β : Type} (k : Nat) (b : β) (l : List (Nat × β)) :
    List.lookup k ((k, b) :: l) = some b := by
  simp [List.lookup]

theorem lookup_cons_ne {β : Type} {k k1 : Nat} (b : β) (l : List (Nat × β)) (hk : k ≠ k1) :
    List.lookup k ((k1, b) :: l) = List.lookup k l := by
  have hkb : (k == k1) = false := by
    simpa using hk
  simp [List.lookup, hkb]

theorem lookup_mem {β : Type} {k : Nat} {b : β} :
    ∀ {l : List (Nat × β)}, List.lookup k l = some b → (k, b) ∈ l := by
  intro l
  induction l with
  | nil =>
    intro h
    simp [List.lookup] at h
  | cons p t ih =>
    rcases p with ⟨k1, b1⟩
    intro h
    by_cases hk : k = k1
    · subst hk
      simp [List.lookup] at h
      subst h
      exact List.mem_cons_self _ _
    · rw [lookup_cons_ne b1 t hk] at h
      exact List.mem_cons_of_mem _ (ih h)

theorem device_primary_ctx_set_flags_ok (dev flags : Nat) {d : Driver} (he : d.errs = []) :
    device_primary_ctx_set_flags_ dev flags d
      = ({ d with primaryFlags := (dev, flags) :: d.primaryFlags,
                  calls := d.calls ++ [DCall.primarySetFlags dev flags] },
         false, none) := by
  simp [device_primary_ctx_set_flags_, Driver.takeErr_of_nil, Driver.note, he]

theorem device_primary_ctx_retain_ok (dev : Nat) {d : Driver} (he : d.errs = []) :
    (device_primary_ctx_retain dev d).2.1 = false
  ∧ (device_primary_ctx_retain dev d).1.errs = []
  ∧ ∃ h, (device_primary_ctx_retain dev d).2.2 = some h := by
  cases hl : List.lookup dev d.primaryHandles with
  | none =>
    simp [device_primary_ctx_retain, Driver.takeErr_of_nil, Driver.note, he, hl]
  | some h =>
    simp [device_primary_ctx_retain, Driver.takeErr_of_nil, Driver.note, he, hl]

theorem PrimaryContext.init_zero {s : MgrState} (dev : Nat) (he : NoErrs s) :
    ∃ h : Handle,
      (PrimaryContext.init dev 0 s).2.2
        = some { id := s.nextId, handle := h, dev := dev, is_primary := true }
    ∧ (PrimaryContext.init dev 0 s).2.1 = false
    ∧ (PrimaryContext.init dev 0 s).1.primary = s.primary
    ∧ NoErrs (PrimaryContext.init dev 0 s).1 := by
  unfold NoErrs at he
  rcases hret : device_primary_ctx_retain dev s.driver with ⟨d1, e1, h1⟩
  obtain ⟨hh1, hh2, h, hh3⟩ := device_primary_ctx_retain_ok dev he
  rw [hret] at hh1 hh2 hh3
  simp only at hh1 hh2 hh3
  subst hh1
  subst hh3
  refine ⟨h, ?_⟩
  simp [PrimaryContext.init, hret, NoErrs, hh2]

theorem retain_primary_hit {s : MgrState} (dev flags : Nat) {p : Ctx}
    (hl : List.lookup dev s.primary = some p) (he : NoErrs s) :
    (ContextManager.retain_primary s dev flags).2.2 = some p
  ∧ (ContextManager.retain_primary s dev flags).2.1 = false
  ∧ (ContextManager.retain_primary s dev flags).1.primary = s.primary
  ∧ NoErrs (ContextManager.retain_primary s dev flags).1
  ∧ (flags ≠ 0 →
      List.lookup p.dev (ContextManager.retain_primary s dev flags).1.driver.primaryFlags
        = some flags) := by
  unfold NoErrs at *
  by_cases hfl : flags = 0
  · subst hfl
    simp [ContextManager.retain_primary, hl, he]
  · simp [ContextManager.retain_primary, hl, hfl, PrimaryContextPtr.set_flags,
          device_primary_ctx_set_flags_ok p.dev flags he, he, lookup_cons_self]

theorem retain_primary_miss {s : MgrState} (dev flags : Nat)
    (hl : List.lookup dev s.primary = none) (he : NoErrs s) :
    ∃ p : Ctx, p.dev = dev
  ∧ (ContextManager.retain_primary s dev flags).2.2 = some p
  ∧ (ContextManager.retain_primary s dev flags).2.1 = false
  ∧ (ContextManager.retain_primary s dev flags).1.primary = (dev, p) :: s.primary
  ∧ NoErrs (ContextManager.retain_primary s dev flags).1
  ∧ (flags ≠ 0 →
      List.lookup dev (ContextManager.retain_primary s dev flags).1.driver.primaryFlags
        = some flags) := by
  obtain ⟨h, hi1, hi2, hi3, hi4⟩ := PrimaryContext.init_zero dev he
  rcases hinit : PrimaryContext.init dev 0 s with ⟨s1, e1, p1⟩
  rw [hinit] at hi1 hi2 hi3 hi4
  simp only at hi1 hi2 hi3 hi4
  subst hi2
  subst hi1
  refine ⟨{ id := s.nextId, handle := h, dev := dev, is_primary := true }, rfl, ?_⟩
  unfold NoErrs at hi4 ⊢
  by_cases hfl : flags = 0
  · subst hfl
    simp [ContextManager.retain_primary, hl, hinit, hi3, hi4]
  · simp [ContextManager.retain_primary, hl, hinit, hfl, PrimaryContextPtr.set_flags,
          device_primary_ctx_set_flags_ok dev flags hi4, hi3, hi4, lookup_cons_self]

theorem retain_primary_wf {s : MgrState} (dev flags : Nat) (hwf : MgrWF s) (he : NoErrs s) :
    MgrWF (ContextManager.retain_primary s dev flags).1 := by
  cases hl : List.lookup dev s.primary with
  | some p =>
    obtain ⟨-, -, hprim, -, -⟩ := retain_primary_hit dev flags hl he
    unfold MgrWF
    rw [hprim]
    exact hwf
  | none =>
    obtain ⟨p, hpdev, -, -, hprim, -, -⟩ := retain_primary_miss dev flags hl he
    unfold MgrWF
    rw [hprim]
    intro q hq
    rcases List.mem_cons.mp hq with hq1 | hq2
    · rw [hq1]
      exact hpdev
    · exact hwf q hq2

theorem retain_primary_dev {s : MgrState} (dev flags : Nat) {q : Ctx}
    (hwf : MgrWF s) (he : NoErrs s)
    (hq : (ContextManager.retain_primary s dev flags).2.2 = some q) :
    q.dev = dev := by
  cases hl : List.lookup dev s.primary with
  | some p =>
    have h1 := (retain_primary_hit dev flags hl he).1
    rw [hq] at h1
    obtain rfl : q = p := by injection h1
    exact hwf (dev, q) (lookup_mem hl)
  | none =>
    obtain ⟨p, hpdev, hret, -⟩ := retain_primary_miss dev flags hl he
    rw [hq] at hret
    obtain rfl : q = p := by injection hret
    exact hpdev

/-- C3: retain_primary is a lazy singleton per device — a second call for
the same device returns the very context object the first call returned;
a call for a different device never returns that object; and a nonzero
flags argument is applied to the (possibly pre-existing) primary context,
observable as the driver now reporting those flags for the device. -/
theorem C3_retain_primary_singleton (s : MgrState) (dev dev2 f1 f2 f3 : Nat)
    (hwf : MgrWF s) (he : NoErrs s) (hne : dev ≠ dev2) :
    ∃ p : Ctx,
      (ContextManager.retain_primary s dev f1).2.2 = some p
    ∧ (ContextManager.retain_primary (ContextManager.retain_primary s dev f1).1 dev f2).2.2
        = some p
    ∧ (∀ q : Ctx,
        (ContextManager.retain_primary (ContextManager.retain_primary s dev f1).1 dev2 f3).2.2
          = some q → p ≠ q)
    ∧ (f1 ≠ 0 →
        List.lookup dev (ContextManager.retain_primary s dev f1).1.driver.primaryFlags
          = some f1) := by
  have hwf1 : MgrWF (ContextManager.retain_primary s dev f1).1 :=
    retain_primary_wf dev f1 hwf he
  cases hl : List.lookup dev s.primary with
  | some p =>
    have hpdev : p.dev = dev := hwf (dev, p) (lookup_mem hl)
    obtain ⟨r1ret, -, r1prim, r1ne, r1fl⟩ := retain_primary_hit dev f1 hl he
    have hl2 : List.lookup dev (ContextManager.retain_primary s dev f1).1.primary = some p := by
      rw [r1prim]
      exact hl
    refine ⟨p, r1ret, (retain_primary_hit dev f2 hl2 r1ne).1, ?_, ?_⟩
    · intro q hq
      have hqdev : q.dev = dev2 := retain_primary_dev dev2 f3 hwf1 r1ne hq
      intro hpq
      apply hne
      rw [← hpdev, hpq, hqdev]
    · intro hf1
      have := r1fl hf1
      rwa [hpdev] at this
  | none =>
    obtain ⟨p, hpdev, r1ret, -, r1prim, r1ne, r1fl⟩ := retain_primary_miss dev f1 hl he
    have hl2 : List.lookup dev (ContextManager.retain_primary s dev f1).1.primary = some p := by
      rw [r1prim]
      exact lookup_cons_self dev p s.primary
    refine ⟨p, r1ret, (retain_primary_hit dev f2 hl2 r1ne).1, ?_, r1fl⟩
    intro q hq
    have hqdev : q.dev = dev2 := retain_primary_dev dev2 f3 hwf1 r1ne hq
    intro hpq
    apply hne
    rw [← hpdev, hpq, hqdev]

/-- Witness for C3 at the empty initial state, devices 0 and 1, with
flags 5 applied on the first call. -/
theorem C3_retain_primary_singleton_witness :
    ∃ p : Ctx,
      (ContextManager.retain_primary sInit 0 5).2.2 = some p
    ∧ (ContextManager.retain_primary (ContextManager.retain_primary sInit 0 5).1 0 0).2.2
        = some p
    ∧ (∀ q : Ctx,
        (ContextManager.retain_primary (ContextManager.retain_primary sInit 0 5).1 1 0).2.2
          = some q → p ≠ q)
    ∧ (5 ≠ 0 →
        List.lookup 0 (ContextManager.retain_primary sInit 0 5).1.driver.primaryFlags
          = some 5) :=
  C3_retain_primary_singleton sInit 0 1 5 0 0
    (by intro p hp; simp [sInit] at hp) rfl (by decide)
